import Mathlib

/-!
Verification of the vote aggregation and threshold-triggered commit engine
of the Crowd_Tune repository (`src/app.py`).

The embedding models the two SQLite tables (`events`, `votes`) and the
handlers that the claims refer to:

* `create_event`  — the `/api/create-event` handler (threshold coercion,
  playlist-name validation, empty `added_songs` initialisation);
* `vote`          — the `/api/vote` handler.  The Python handler commits the
  ledger mutation (`conn.commit()`, line 605) before it re-reads the tally
  and runs the threshold/dispatch branch, so the handler is modelled as two
  phases (`votePhase1`, `votePhase2`) composed by `vote`; the phase split is
  exactly the transaction boundary of the source.  The external Spotify call
  `playlist_add_items` is modelled by a boolean `dispatchOk` parameter and
  the result records whether the dispatcher was invoked;
* `get_user_vote_count`, `get_event`, `get_event_stats` — the usage and
  tally-snapshot queries.

Sets stored in the database (`added_songs`, and the `votes` table with its
three-column primary key) are modelled as `Finset`s; SQL `COUNT` queries
become `Finset.card` of the corresponding filter.
-/

/-- One row of the `events` table (the claim-relevant columns). -/
structure Event where
  code : String
  playlist_name : String
  playlist_id : String
  threshold : Int
  admin_token : Option String
  added_songs : Finset String
deriving DecidableEq

/-- A key of the `votes` table: `(event_code, song_id, user_id)`. -/
abbrev VKey := String × String × String

/-- The database: the `events` table and the `votes` table.  The `votes`
table has `(event_code, song_id, user_id)` as primary key, hence a set. -/
structure DB where
  events : List Event
  votes : Finset VKey
deriving DecidableEq

/-- `SELECT * FROM events WHERE code = ?` (primary-key lookup). -/
def findEvent (l : List Event) (ec : String) : Option Event :=
  l.find? (fun e => e.code = ec)

/-- `SELECT COUNT(*) FROM votes WHERE event_code = ? AND song_id = ?`. -/
def tally (votes : Finset VKey) (ec s : String) : Nat :=
  (votes.filter (fun t => t.1 = ec ∧ t.2.1 = s)).card

/-- `SELECT COUNT(*) FROM votes WHERE event_code = ? AND user_id = ?`:
the number of distinct tracks the voter currently backs in the event. -/
def usage (votes : Finset VKey) (ec v : String) : Nat :=
  (votes.filter (fun t => t.1 = ec ∧ t.2.2 = v)).card

/-- `SELECT COUNT(DISTINCT user_id) FROM votes WHERE event_code = ?`. -/
def totalVoters (votes : Finset VKey) (ec : String) : Nat :=
  ((votes.filter (fun t => t.1 = ec)).image (fun t => t.2.2)).card

/-- `SELECT DISTINCT song_id FROM votes WHERE event_code = ?`. -/
def eventSongs (votes : Finset VKey) (ec : String) : Finset String :=
  (votes.filter (fun t => t.1 = ec)).image (fun t => t.2.1)

/-- Whether the track is in the event's committed set (`added_songs`). -/
def isCommitted (db : DB) (ec s : String) : Bool :=
  match findEvent db.events ec with
  | some ev => decide (s ∈ ev.added_songs)
  | none => false

/-- `get_user_vote_count(event_code, voter_id)` from `src/app.py`:
returns 0 when either identifier is missing, else counts the voter's rows. -/
def get_user_vote_count (db : DB) (ec v : String) : Nat :=
  if ec = "" ∨ v = "" then 0
  else usage db.votes ec v

/-- The possible responses of the `/api/vote` handler. -/
inductive VoteOutcome where
  | missingIds
  | invalidEvent
  | alreadyAdded
  | voteLimitReached
  | dispatchFailed
  | toggled (action : String) (voteCount : Nat) (userVotesUsed : Nat)
      (thresholdReached : Bool)
deriving DecidableEq

/-- The work left pending after the ledger mutation has been committed:
the event row read at the start of the handler (a snapshot), whether the
toggle removed a vote, and the request identifiers. -/
structure Pending where
  ev : Event
  removed : Bool
  ec : String
  s : String
  v : String
deriving DecidableEq

/-- Result of the handler: the JSON response, the database afterwards, and
whether the Commit Dispatcher (`playlist_add_items`) was invoked. -/
structure VoteResult where
  outcome : VoteOutcome
  db : DB
  dispatched : Bool
deriving DecidableEq

/-- The `action` field of the response (`removed` or `added`). -/
def actionStr (removed : Bool) : String :=
  if removed then "removed" else "added"

/-- The `UPDATE events SET added_songs = ? WHERE code = ?` write: it stores
the snapshot set read at the start of the handler plus the song. -/
def commitUpd (p : Pending) (e : Event) : Event :=
  if e.code = p.ec then { e with added_songs := insert p.s p.ev.added_songs }
  else e

/-- First phase of the `/api/vote` handler (`src/app.py` lines 554–605):
identifier guard, event lookup, committed-track guard, toggle detection,
vote-cap check (only when adding), ledger mutation, `conn.commit()`. -/
def votePhase1 (db : DB) (ec s v : String) : (VoteOutcome ⊕ Pending) × DB :=
  if ec = "" ∨ s = "" ∨ v = "" then (Sum.inl VoteOutcome.missingIds, db)
  else
    match findEvent db.events ec with
    | none => (Sum.inl VoteOutcome.invalidEvent, db)
    | some ev =>
      if s ∈ ev.added_songs then (Sum.inl VoteOutcome.alreadyAdded, db)
      else
        if (ec, s, v) ∈ db.votes then
          (Sum.inr ⟨ev, true, ec, s, v⟩,
           { db with votes := db.votes.erase (ec, s, v) })
        else
          if 3 ≤ usage db.votes ec v then
            (Sum.inl VoteOutcome.voteLimitReached, db)
          else
            (Sum.inr ⟨ev, false, ec, s, v⟩,
             { db with votes := insert (ec, s, v) db.votes })

/-- Second phase of the `/api/vote` handler (`src/app.py` lines 607–656):
re-read the tally and the voter's usage, compare the tally with the event's
threshold, and if it is reached and an admin token is present, invoke the
Commit Dispatcher; on success mark the song added (snapshot plus song), on
exception return an error response; otherwise return the toggled response.
The phase runs for removals as well as additions. -/
def votePhase2 (dispatchOk : Bool) (db : DB) (p : Pending) : VoteResult :=
  if p.ev.threshold ≤ (tally db.votes p.ec p.s : Int) then
    match p.ev.admin_token with
    | some _ =>
      if dispatchOk then
        { outcome := VoteOutcome.toggled (actionStr p.removed)
            (tally db.votes p.ec p.s) (usage db.votes p.ec p.v) true,
          db := { db with events := db.events.map (commitUpd p) },
          dispatched := true }
      else
        { outcome := VoteOutcome.dispatchFailed, db := db, dispatched := true }
    | none =>
      { outcome := VoteOutcome.toggled (actionStr p.removed)
          (tally db.votes p.ec p.s) (usage db.votes p.ec p.v) false,
        db := db, dispatched := false }
  else
    { outcome := VoteOutcome.toggled (actionStr p.removed)
        (tally db.votes p.ec p.s) (usage db.votes p.ec p.v) false,
      db := db, dispatched := false }

/-- The `/api/vote` handler: the two phases in sequence. -/
def vote (dispatchOk : Bool) (db : DB) (ec s v : String) : VoteResult :=
  match votePhase1 db ec s v with
  | (Sum.inl o, db₁) => { outcome := o, db := db₁, dispatched := false }
  | (Sum.inr p, db₁) => votePhase2 dispatchOk db₁ p

/-- One call of the `/api/vote` handler, for sequences of toggles. -/
structure VoteCall where
  dOk : Bool
  ec : String
  s : String
  v : String

/-- Run a sequence of `/api/vote` calls. -/
def execVotes (calls : List VoteCall) (db : DB) : DB :=
  calls.foldl (fun d c => (vote c.dOk d c.ec c.s c.v).db) db

/-- The `threshold` field sent to `/api/create-event`: absent, a value on
which Python `int()` succeeds, or a value on which `int()` raises. -/
inductive ThresholdInput where
  | unset
  | intLike (n : Int)
  | nonIntLike

/-- `int(data.get('threshold', 5))`: 5 when the key is absent, `int()` of
the value otherwise (`none` models the raised exception). -/
def coerce_threshold : ThresholdInput → Option Int
  | ThresholdInput.unset => some 5
  | ThresholdInput.intLike n => some n
  | ThresholdInput.nonIntLike => none

/-- The possible responses of the `/api/create-event` handler. -/
inductive CreateResult where
  | validationError
  | createError
  | created (ev : Event)
deriving DecidableEq

/-- The `/api/create-event` handler (`src/app.py` lines 181–266), restricted
to the claim-relevant behaviour: empty playlist name is rejected with a 400
validation error; the threshold is `int(data.get('threshold', 5))`, whose
exception aborts creation with an error response; the event row is inserted
with `added_songs` empty. -/
def create_event (code playlist_name playlist_id : String)
    (t : ThresholdInput) (tok : String) : CreateResult :=
  if playlist_name = "" then CreateResult.validationError
  else
    match coerce_threshold t with
    | none => CreateResult.createError
    | some n =>
      CreateResult.created
        { code := code, playlist_name := playlist_name,
          playlist_id := playlist_id, threshold := n,
          admin_token := some tok, added_songs := ∅ }

/-- One entry of the `songs` list returned by `/api/event-stats`. -/
structure StatsEntry where
  song_id : String
  votes : Nat
  threshold : Int
deriving DecidableEq

/-- Extract the elements of a multiset of strings as a list in ascending
order (the representative order chosen for the unspecified SQL `GROUP BY`
row order; `insertionSort` is stable, like Python `list.sort`). -/
def msortAsc (s : Multiset String) : List String :=
  Quot.liftOn s (fun l => l.insertionSort (· ≤ ·)) fun _ _ h =>
    List.eq_of_perm_of_sorted
      ((List.perm_insertionSort _ _).trans
        (h.trans (List.perm_insertionSort _ _).symm))
      (List.sorted_insertionSort _ _) (List.sorted_insertionSort _ _)

/-- The distinct voted songs of the event, as a list. -/
def songsSorted (votes : Finset VKey) (ec : String) : List String :=
  msortAsc (eventSongs votes ec).1

/-- The `/api/event-stats/<event_code>` handler (`src/app.py` lines
664–692): one `{song_id, votes, threshold}` entry per song with at least
one vote, sorted by votes descending with a stable sort (Python
`list.sort` with `reverse=True`), plus the distinct-voter count and the
threshold. -/
def get_event_stats (db : DB) (ec : String) :
    Option (List StatsEntry × Nat × Int) :=
  match findEvent db.events ec with
  | none => none
  | some ev =>
    some
      (List.insertionSort (fun a b => b.votes ≤ a.votes)
        ((songsSorted db.votes ec).map
          (fun s => { song_id := s, votes := tally db.votes ec s,
                      threshold := ev.threshold : StatsEntry })),
       totalVoters db.votes ec, ev.threshold)

/-- The `/api/event/<event_code>` handler (`src/app.py` lines 268–290):
per-song vote counts, the distinct-voter count, and the requesting voter's
own `user_votes_used` via `get_user_vote_count`. -/
def get_event (db : DB) (ec voter : String) :
    Option (List (String × Nat) × Nat × Nat) :=
  match findEvent db.events ec with
  | none => none
  | some _ =>
    some ((songsSorted db.votes ec).map
            (fun s => (s, tally db.votes ec s)),
          totalVoters db.votes ec,
          get_user_vote_count db ec voter)

/-! ### Concrete fixtures used by witnesses and counterexamples -/

/-- Event used by the C1 witness. -/
def ev1 : Event :=
  { code := "E", playlist_name := "pl", playlist_id := "pid", threshold := 5,
    admin_token := some "tok", added_songs := ∅ }

/-- Empty-ledger database for the C1 witness. -/
def db1w : DB := { events := [ev1], votes := ∅ }

/-- Database with a voter at the cap, for the C1 witness. -/
def db1x : DB :=
  { events := [ev1],
    votes := {("E", "S1", "A"), ("E", "S2", "A"), ("E", "S3", "A")} }

/-- Database with one existing vote, for the C1 witness. -/
def db1y : DB := { events := [ev1], votes := {("E", "S1", "A")} }

/-- Event with a committed track, for the C3 witness. -/
def ev3 : Event :=
  { code := "E", playlist_name := "pl", playlist_id := "pid", threshold := 1,
    admin_token := some "tok", added_songs := {"S"} }

/-- Database whose committed track has a tally above threshold, for the C3
witness. -/
def db3 : DB := { events := [ev3], votes := {("E", "S", "A"), ("E", "S", "B")} }

/-- Event for the C4 witness (threshold 2). -/
def ev4 : Event :=
  { code := "E", playlist_name := "pl", playlist_id := "pid", threshold := 2,
    admin_token := some "tok", added_songs := ∅ }

/-- Database one vote below the threshold, for the C4 witness. -/
def db4 : DB := { events := [ev4], votes := {("E", "S", "A")} }

/-- Event for the C5 witness (threshold far above any tally). -/
def ev5 : Event :=
  { code := "E", playlist_name := "pl", playlist_id := "pid", threshold := 5,
    admin_token := some "tok", added_songs := ∅ }

/-- Database for the C5 witness. -/
def db5 : DB := { events := [ev5], votes := ∅ }

/-- Event for the C2 bug demonstration (threshold 1, credential present). -/
def ev2 : Event :=
  { code := "E", playlist_name := "pl", playlist_id := "pid", threshold := 1,
    admin_token := some "tok", added_songs := ∅ }

/-- Database for the C2 bug demonstration: two voters back the uncommitted
track, so the tally after one removal is still at the threshold.  This state
is reachable, e.g. when both additions crossed the threshold while dispatch
was failing. -/
def db2 : DB := { events := [ev2], votes := {("E", "S", "A"), ("E", "S", "B")} }

/-- Event for the C6 race demonstration (threshold 2). -/
def ev6 : Event :=
  { code := "E", playlist_name := "pl", playlist_id := "pid", threshold := 2,
    admin_token := some "tok", added_songs := ∅ }

/-- Initial database for the C6 race demonstration. -/
def db6 : DB := { events := [ev6], votes := ∅ }

/-- Pending state of voter A's request after its first phase. -/
def p6a : Pending := { ev := ev6, removed := false, ec := "E", s := "S", v := "A" }

/-- Pending state of voter B's request after its first phase. -/
def p6b : Pending := { ev := ev6, removed := false, ec := "E", s := "S", v := "B" }

/-- Database after voter A's first phase committed its insert. -/
def db6a : DB := { events := [ev6], votes := insert ("E", "S", "A") ∅ }

/-- Database after both first phases committed their inserts. -/
def db6b : DB :=
  { events := [ev6], votes := insert ("E", "S", "B") (insert ("E", "S", "A") ∅) }

/-- Event with no usable admin credential, for the C9 counterexample. -/
def ev9 : Event :=
  { code := "E", playlist_name := "pl", playlist_id := "pid", threshold := 1,
    admin_token := none, added_songs := ∅ }

/-- Database for the C9 counterexample. -/
def db9 : DB := { events := [ev9], votes := ∅ }

instance : IsTotal StatsEntry (fun a b => b.votes ≤ a.votes) :=
  ⟨fun a b => Nat.le_total b.votes a.votes⟩

instance : IsTrans StatsEntry (fun a b => b.votes ≤ a.votes) :=
  ⟨fun _ _ _ hab hbc => le_trans hbc hab⟩

/-- Event for the C8 witness. -/
def ev8 : Event :=
  { code := "E", playlist_name := "pl", playlist_id := "pid", threshold := 5,
    admin_token := some "tok", added_songs := ∅ }

/-- Database for the C8 witness: one track backed by two voters. -/
def db8 : DB :=
  { events := [ev8], votes := {("E", "S1", "A"), ("E", "S1", "B")} }

/-- Entries returned by the stats query for the C8 witness. -/
def entries8 : List StatsEntry :=
  [{ song_id := "S1", votes := 2, threshold := 5 }]

/-! ### Helper lemmas about the queries -/

theorem usage_erase_le (votes : Finset VKey) (x : VKey) (ec v : String) :
    usage (votes.erase x) ec v ≤ usage votes ec v :=
  Finset.card_le_card (Finset.filter_subset_filter _ (Finset.erase_subset _ _))

theorem usage_insert_self_le (votes : Finset VKey) (ec s v : String) :
    usage (insert (ec, s, v) votes) ec v ≤ usage votes ec v + 1 := by
  unfold usage
  rw [Finset.filter_insert]
  split
  · exact Finset.card_insert_le _ _
  · exact Nat.le_succ_of_le (Nat.le_refl _)

theorem usage_insert_ne (votes : Finset VKey) (ec s v ec' v' : String)
    (h : ¬(ec = ec' ∧ v = v')) :
    usage (insert (ec, s, v) votes) ec' v' = usage votes ec' v' := by
  unfold usage
  rw [Finset.filter_insert]
  split
  · next hp => exact absurd ⟨hp.1, hp.2⟩ h
  · rfl

theorem usage_erase_self (votes : Finset VKey) (ec s v : String)
    (h : (ec, s, v) ∈ votes) :
    usage (votes.erase (ec, s, v)) ec v = usage votes ec v - 1 := by
  unfold usage
  rw [Finset.filter_erase, Finset.card_erase_of_mem]
  exact Finset.mem_filter.2 ⟨h, by simp⟩

theorem usage_pos (votes : Finset VKey) (ec s v : String)
    (h : (ec, s, v) ∈ votes) : 0 < usage votes ec v :=
  Finset.card_pos.2 ⟨(ec, s, v), Finset.mem_filter.2 ⟨h, by simp⟩⟩

theorem findEvent_code {l : List Event} {ec : String} {ev : Event}
    (h : findEvent l ec = some ev) : ev.code = ec := by
  have := List.find?_some h
  simpa using this

theorem commitUpd_code (p : Pending) (e : Event) :
    (commitUpd p e).code = e.code := by
  unfold commitUpd
  split <;> rfl

theorem findEvent_map (f : Event → Event) (hf : ∀ e, (f e).code = e.code)
    (l : List Event) (ec : String) :
    findEvent (l.map f) ec = (findEvent l ec).map f := by
  induction l with
  | nil => rfl
  | cons a l ih =>
    unfold findEvent at *
    simp only [List.map_cons, List.find?]
    by_cases h : a.code = ec
    · simp [hf, h]
    · simp [hf, h, ih]

theorem isCommitted_false {db : DB} {ec s : String} {ev : Event}
    (h2 : findEvent db.events ec = some ev) (h3 : s ∉ ev.added_songs) :
    isCommitted db ec s = false := by
  simp [isCommitted, h2, h3]

theorem isCommitted_map_commitUpd (db : DB) (p : Pending) (ev : Event)
    (hfind : findEvent db.events p.ec = some ev) :
    isCommitted { db with events := db.events.map (commitUpd p) } p.ec p.s = true := by
  unfold isCommitted
  simp only [DB.events]
  rw [findEvent_map (commitUpd p) (commitUpd_code p) db.events p.ec, hfind]
  simp [commitUpd, findEvent_code hfind]

/-! ### Characterisation of the two phases of the vote handler -/

theorem votePhase1_missing (db : DB) (ec s v : String)
    (h : ec = "" ∨ s = "" ∨ v = "") :
    votePhase1 db ec s v = (Sum.inl VoteOutcome.missingIds, db) := by
  unfold votePhase1
  rw [if_pos h]

theorem votePhase1_noevent (db : DB) (ec s v : String)
    (h1 : ¬(ec = "" ∨ s = "" ∨ v = ""))
    (h2 : findEvent db.events ec = none) :
    votePhase1 db ec s v = (Sum.inl VoteOutcome.invalidEvent, db) := by
  unfold votePhase1
  simp only [h2]
  rw [if_neg h1]

theorem votePhase1_committed (db : DB) (ec s v : String) (ev : Event)
    (h1 : ¬(ec = "" ∨ s = "" ∨ v = ""))
    (h2 : findEvent db.events ec = some ev) (h3 : s ∈ ev.added_songs) :
    votePhase1 db ec s v = (Sum.inl VoteOutcome.alreadyAdded, db) := by
  unfold votePhase1
  simp only [h2]
  rw [if_neg h1, if_pos h3]

theorem votePhase1_remove (db : DB) (ec s v : String) (ev : Event)
    (h1 : ¬(ec = "" ∨ s = "" ∨ v = ""))
    (h2 : findEvent db.events ec = some ev) (h3 : s ∉ ev.added_songs)
    (h4 : (ec, s, v) ∈ db.votes) :
    votePhase1 db ec s v =
      (Sum.inr ⟨ev, true, ec, s, v⟩,
       { db with votes := db.votes.erase (ec, s, v) }) := by
  unfold votePhase1
  simp only [h2]
  rw [if_neg h1, if_neg h3, if_pos h4]

theorem votePhase1_limit (db : DB) (ec s v : String) (ev : Event)
    (h1 : ¬(ec = "" ∨ s = "" ∨ v = ""))
    (h2 : findEvent db.events ec = some ev) (h3 : s ∉ ev.added_songs)
    (h4 : (ec, s, v) ∉ db.votes) (h5 : 3 ≤ usage db.votes ec v) :
    votePhase1 db ec s v = (Sum.inl VoteOutcome.voteLimitReached, db) := by
  unfold votePhase1
  simp only [h2]
  rw [if_neg h1, if_neg h3, if_neg h4, if_pos h5]

theorem votePhase1_add (db : DB) (ec s v : String) (ev : Event)
    (h1 : ¬(ec = "" ∨ s = "" ∨ v = ""))
    (h2 : findEvent db.events ec = some ev) (h3 : s ∉ ev.added_songs)
    (h4 : (ec, s, v) ∉ db.votes) (h5 : ¬ 3 ≤ usage db.votes ec v) :
    votePhase1 db ec s v =
      (Sum.inr ⟨ev, false, ec, s, v⟩,
       { db with votes := insert (ec, s, v) db.votes }) := by
  unfold votePhase1
  simp only [h2]
  rw [if_neg h1, if_neg h3, if_neg h4, if_neg h5]

theorem vote_eq_inl {d : Bool} {db : DB} {ec s v : String} {o : VoteOutcome}
    {db₁ : DB} (h : votePhase1 db ec s v = (Sum.inl o, db₁)) :
    vote d db ec s v = { outcome := o, db := db₁, dispatched := false } := by
  unfold vote
  rw [h]

theorem vote_eq_inr {d : Bool} {db : DB} {ec s v : String} {p : Pending}
    {db₁ : DB} (h : votePhase1 db ec s v = (Sum.inr p, db₁)) :
    vote d db ec s v = votePhase2 d db₁ p := by
  unfold vote
  rw [h]

theorem votePhase2_votes (d : Bool) (db : DB) (p : Pending) :
    (votePhase2 d db p).db.votes = db.votes := by
  unfold votePhase2
  split
  · split
    · split <;> rfl
    · rfl
  · rfl

theorem votePhase2_db (d : Bool) (db : DB) (p : Pending) :
    (votePhase2 d db p).db = db ∨
    (votePhase2 d db p).db = { db with events := db.events.map (commitUpd p) } := by
  unfold votePhase2
  split
  · split
    · split
      · right; rfl
      · left; rfl
    · left; rfl
  · left; rfl

theorem votePhase2_ne_limit (d : Bool) (db : DB) (p : Pending) :
    (votePhase2 d db p).outcome ≠ VoteOutcome.voteLimitReached := by
  unfold votePhase2
  split
  · split
    · split <;> simp
    · simp
  · simp

theorem votePhase2_fail (db : DB) (p : Pending) (tok : String)
    (htok : p.ev.admin_token = some tok)
    (hthr : p.ev.threshold ≤ (tally db.votes p.ec p.s : Int)) :
    votePhase2 false db p =
      { outcome := VoteOutcome.dispatchFailed, db := db, dispatched := true } := by
  unfold votePhase2
  simp only [htok]
  rw [if_pos hthr]
  rfl

theorem votePhase2_success (db : DB) (p : Pending) (tok : String)
    (htok : p.ev.admin_token = some tok)
    (hthr : p.ev.threshold ≤ (tally db.votes p.ec p.s : Int)) :
    votePhase2 true db p =
      { outcome := VoteOutcome.toggled (actionStr p.removed)
          (tally db.votes p.ec p.s) (usage db.votes p.ec p.v) true,
        db := { db with events := db.events.map (commitUpd p) },
        dispatched := true } := by
  unfold votePhase2
  simp only [htok]
  rw [if_pos hthr]
  rfl

theorem votePhase2_no_token (d : Bool) (db : DB) (p : Pending)
    (htok : p.ev.admin_token = none)
    (hthr : p.ev.threshold ≤ (tally db.votes p.ec p.s : Int)) :
    votePhase2 d db p =
      { outcome := VoteOutcome.toggled (actionStr p.removed)
          (tally db.votes p.ec p.s) (usage db.votes p.ec p.v) false,
        db := db, dispatched := false } := by
  unfold votePhase2
  simp only [htok]
  rw [if_pos hthr]

theorem votePhase2_below (d : Bool) (db : DB) (p : Pending)
    (hthr : ¬ p.ev.threshold ≤ (tally db.votes p.ec p.s : Int)) :
    votePhase2 d db p =
      { outcome := VoteOutcome.toggled (actionStr p.removed)
          (tally db.votes p.ec p.s) (usage db.votes p.ec p.v) false,
        db := db, dispatched := false } := by
  unfold votePhase2
  rw [if_neg hthr]

/-! ### Vote-cap claims -/

theorem vote_votes_cases (dOk : Bool) (db : DB) (ec s v : String) :
    (vote dOk db ec s v).db.votes = db.votes ∨
    ((ec, s, v) ∈ db.votes ∧
      (vote dOk db ec s v).db.votes = db.votes.erase (ec, s, v)) ∨
    ((ec, s, v) ∉ db.votes ∧ usage db.votes ec v < 3 ∧
      (vote dOk db ec s v).db.votes = insert (ec, s, v) db.votes) := by
  by_cases h1 : ec = "" ∨ s = "" ∨ v = ""
  · left
    rw [vote_eq_inl (votePhase1_missing db ec s v h1)]
  · cases hfind : findEvent db.events ec with
    | none =>
      left
      rw [vote_eq_inl (votePhase1_noevent db ec s v h1 hfind)]
    | some ev =>
      by_cases h3 : s ∈ ev.added_songs
      · left
        rw [vote_eq_inl (votePhase1_committed db ec s v ev h1 hfind h3)]
      · by_cases h4 : (ec, s, v) ∈ db.votes
        · right; left
          refine ⟨h4, ?_⟩
          rw [vote_eq_inr (votePhase1_remove db ec s v ev h1 hfind h3 h4)]
          rw [votePhase2_votes]
        · by_cases h5 : 3 ≤ usage db.votes ec v
          · left
            rw [vote_eq_inl (votePhase1_limit db ec s v ev h1 hfind h3 h4 h5)]
          · right; right
            refine ⟨h4, Nat.not_le.mp h5, ?_⟩
            rw [vote_eq_inr (votePhase1_add db ec s v ev h1 hfind h3 h4 h5)]
            rw [votePhase2_votes]

theorem usage_vote_step (dOk : Bool) (db : DB) (ec s v : String)
    (h : ∀ ec' v', usage db.votes ec' v' ≤ 3) :
    ∀ ec' v', usage (vote dOk db ec s v).db.votes ec' v' ≤ 3 := by
  intro ec' v'
  rcases vote_votes_cases dOk db ec s v with hc | ⟨_, hc⟩ | ⟨_, hu, hc⟩
  · rw [hc]; exact h ec' v'
  · rw [hc]; exact le_trans (usage_erase_le _ _ _ _) (h ec' v')
  · rw [hc]
    by_cases he : ec = ec' ∧ v = v'
    · obtain ⟨he1, he2⟩ := he
      subst he1; subst he2
      exact le_trans (usage_insert_self_le _ _ _ _) (Nat.succ_le_of_lt hu)
    · rw [usage_insert_ne _ _ _ _ _ _ he]
      exact h ec' v'

theorem usage_execVotes_le (calls : List VoteCall) :
    ∀ db : DB, (∀ ec v, usage db.votes ec v ≤ 3) →
      ∀ ec v, usage (execVotes calls db).votes ec v ≤ 3 := by
  induction calls with
  | nil => intro db h; exact h
  | cons c cs ih =>
    intro db h
    exact ih _ (usage_vote_step c.dOk db c.ec c.s c.v h)

theorem vote_mem_ne_limit (dOk : Bool) (db : DB) (ec s v : String)
    (h4 : (ec, s, v) ∈ db.votes) :
    (vote dOk db ec s v).outcome ≠ VoteOutcome.voteLimitReached := by
  by_cases h1 : ec = "" ∨ s = "" ∨ v = ""
  · rw [vote_eq_inl (votePhase1_missing db ec s v h1)]
    simp
  · cases hfind : findEvent db.events ec with
    | none =>
      rw [vote_eq_inl (votePhase1_noevent db ec s v h1 hfind)]
      simp
    | some ev =>
      by_cases h3 : s ∈ ev.added_songs
      · rw [vote_eq_inl (votePhase1_committed db ec s v ev h1 hfind h3)]
        simp
      · rw [vote_eq_inr (votePhase1_remove db ec s v ev h1 hfind h3 h4)]
        exact votePhase2_ne_limit _ _ _

/-- C1: after any sequence of vote toggles, every voter's usage in every
event stays at most 3; a toggle that would add a vote while the voter's
usage is already 3 or more returns the vote-limit outcome and performs no
mutation; and a toggle that removes an existing vote is never rejected by
the cap (the cap is checked only when adding). -/
theorem C1_vote_cap_invariant :
    (∀ (calls : List VoteCall) (db : DB),
        (∀ ec v, usage db.votes ec v ≤ 3) →
        ∀ ec v, usage (execVotes calls db).votes ec v ≤ 3)
    ∧ (∀ (dOk : Bool) (db : DB) (ec s v : String) (ev : Event),
        ¬(ec = "" ∨ s = "" ∨ v = "") →
        findEvent db.events ec = some ev → s ∉ ev.added_songs →
        (ec, s, v) ∉ db.votes → 3 ≤ usage db.votes ec v →
        vote dOk db ec s v =
          { outcome := VoteOutcome.voteLimitReached, db := db,
            dispatched := false })
    ∧ (∀ (dOk : Bool) (db : DB) (ec s v : String),
        (ec, s, v) ∈ db.votes →
        (vote dOk db ec s v).outcome ≠ VoteOutcome.voteLimitReached) := by
  refine ⟨usage_execVotes_le, ?_, vote_mem_ne_limit⟩
  intro dOk db ec s v ev h1 h2 h3 h4 h5
  exact vote_eq_inl (votePhase1_limit db ec s v ev h1 h2 h3 h4 h5)

/-- Witness for C1 at concrete inputs. -/
theorem C1_vote_cap_invariant_witness :
    usage (execVotes [⟨true, "E", "S1", "A"⟩, ⟨true, "E", "S2", "A"⟩] db1w).votes "E" "A" ≤ 3
    ∧ vote true db1x "E" "S4" "A" =
        { outcome := VoteOutcome.voteLimitReached, db := db1x,
          dispatched := false }
    ∧ (vote true db1y "E" "S1" "A").outcome ≠ VoteOutcome.voteLimitReached :=
  ⟨C1_vote_cap_invariant.1 _ db1w
      (fun ec v => by simp [db1w, usage]) "E" "A",
   C1_vote_cap_invariant.2.1 true db1x "E" "S4" "A" ev1 (by decide) (by decide)
      (by decide) (by decide) (by decide),
   C1_vote_cap_invariant.2.2 true db1y "E" "S1" "A" (by decide)⟩

/-! ### Committed-track guard (C3) -/

/-- C3: a vote on a track already in the event's committed set returns the
already-committed outcome, leaves the whole database (vote ledger and
committed set) unchanged, and never invokes the Commit Dispatcher, with no
assumption on the current tally. -/
theorem C3_already_committed (dOk : Bool) (db : DB) (ec s v : String)
    (ev : Event) (h1 : ¬(ec = "" ∨ s = "" ∨ v = ""))
    (h2 : findEvent db.events ec = some ev) (h3 : s ∈ ev.added_songs) :
    vote dOk db ec s v =
      { outcome := VoteOutcome.alreadyAdded, db := db, dispatched := false } :=
  vote_eq_inl (votePhase1_committed db ec s v ev h1 h2 h3)

/-- Witness for C3 at a concrete input whose tally is above the threshold. -/
theorem C3_already_committed_witness :
    vote true db3 "E" "S" "C" =
      { outcome := VoteOutcome.alreadyAdded, db := db3, dispatched := false } :=
  C3_already_committed true db3 "E" "S" "C" ev3 (by decide) (by decide)
    (by decide)

/-! ### Dispatch-failure contract (C4) -/

/-- C4: when the Commit Dispatcher fails on a threshold-crossing vote, the
handler surfaces the dispatch-failure error, the vote just inserted stays
recorded, the track is not in the committed set afterwards (the commit flag
is written only after dispatch success), and the dispatcher was invoked. -/
theorem C4_dispatch_failure (db : DB) (ec s v : String) (ev : Event)
    (tok : String) (h1 : ¬(ec = "" ∨ s = "" ∨ v = ""))
    (h2 : findEvent db.events ec = some ev) (h3 : s ∉ ev.added_songs)
    (h4 : (ec, s, v) ∉ db.votes) (h5 : ¬ 3 ≤ usage db.votes ec v)
    (htok : ev.admin_token = some tok)
    (hthr : ev.threshold ≤ (tally (insert (ec, s, v) db.votes) ec s : Int)) :
    (vote false db ec s v).outcome = VoteOutcome.dispatchFailed
    ∧ (vote false db ec s v).db =
        { db with votes := insert (ec, s, v) db.votes }
    ∧ (ec, s, v) ∈ (vote false db ec s v).db.votes
    ∧ isCommitted (vote false db ec s v).db ec s = false
    ∧ (vote false db ec s v).dispatched = true := by
  rw [vote_eq_inr (votePhase1_add db ec s v ev h1 h2 h3 h4 h5),
    votePhase2_fail _ _ tok htok hthr]
  refine ⟨rfl, rfl, Finset.mem_insert_self _ _, ?_, rfl⟩
  exact isCommitted_false h2 h3

/-- Witness for C4: voter B's vote crosses the threshold, dispatch fails. -/
theorem C4_dispatch_failure_witness :
    (vote false db4 "E" "S" "B").outcome = VoteOutcome.dispatchFailed
    ∧ (vote false db4 "E" "S" "B").db =
        { db4 with votes := insert ("E", "S", "B") db4.votes }
    ∧ ("E", "S", "B") ∈ (vote false db4 "E" "S" "B").db.votes
    ∧ isCommitted (vote false db4 "E" "S" "B").db "E" "S" = false
    ∧ (vote false db4 "E" "S" "B").dispatched = true :=
  C4_dispatch_failure db4 "E" "S" "B" ev4 "tok" (by decide) (by decide)
    (by decide) (by decide) (by decide) (by decide) (by decide)

/-! ### Double-toggle round trip (C5) -/

/-- C5: toggling the same (event, track, voter) twice in succession restores
the vote ledger — and hence the track's tally and the voter's usage — to
its value before the first toggle, provided the voter's usage satisfies the
cap invariant and the track does not become committed during the first
toggle.  No assumption is made on the dispatch outcomes. -/
theorem C5_double_toggle (d1 d2 : Bool) (db : DB) (ec s v : String)
    (hu : usage db.votes ec v ≤ 3)
    (hc : isCommitted (vote d1 db ec s v).db ec s = isCommitted db ec s) :
    (vote d2 (vote d1 db ec s v).db ec s v).db.votes = db.votes
    ∧ tally (vote d2 (vote d1 db ec s v).db ec s v).db.votes ec s
        = tally db.votes ec s
    ∧ usage (vote d2 (vote d1 db ec s v).db ec s v).db.votes ec v
        = usage db.votes ec v
    ∧ ((ec, s, v) ∈ (vote d2 (vote d1 db ec s v).db ec s v).db.votes
        ↔ (ec, s, v) ∈ db.votes) := by
  suffices h : (vote d2 (vote d1 db ec s v).db ec s v).db.votes = db.votes by
    exact ⟨h, by rw [h], by rw [h], by rw [h]⟩
  by_cases h1 : ec = "" ∨ s = "" ∨ v = ""
  · have e1 : (vote d1 db ec s v).db = db := by
      rw [vote_eq_inl (votePhase1_missing db ec s v h1)]
    rw [e1, vote_eq_inl (votePhase1_missing db ec s v h1)]
  · cases hfind : findEvent db.events ec with
    | none =>
      have e1 : (vote d1 db ec s v).db = db := by
        rw [vote_eq_inl (votePhase1_noevent db ec s v h1 hfind)]
      rw [e1, vote_eq_inl (votePhase1_noevent db ec s v h1 hfind)]
    | some ev =>
      by_cases h3 : s ∈ ev.added_songs
      · have e1 : (vote d1 db ec s v).db = db := by
          rw [vote_eq_inl (votePhase1_committed db ec s v ev h1 hfind h3)]
        rw [e1, vote_eq_inl (votePhase1_committed db ec s v ev h1 hfind h3)]
      · by_cases h4 : (ec, s, v) ∈ db.votes
        · have hv1 : vote d1 db ec s v =
              votePhase2 d1 { db with votes := db.votes.erase (ec, s, v) }
                ⟨ev, true, ec, s, v⟩ :=
            vote_eq_inr (votePhase1_remove db ec s v ev h1 hfind h3 h4)
          rcases votePhase2_db d1
              { db with votes := db.votes.erase (ec, s, v) }
              ⟨ev, true, ec, s, v⟩ with hdb | hdb
          · have e1 : (vote d1 db ec s v).db =
                { db with votes := db.votes.erase (ec, s, v) } := by
              rw [hv1, hdb]
            rw [e1]
            have h4' : (ec, s, v) ∉
                ({ db with votes := db.votes.erase (ec, s, v) } : DB).votes :=
              Finset.not_mem_erase _ _
            have h5' : ¬ 3 ≤ usage (db.votes.erase (ec, s, v)) ec v := by
              rw [usage_erase_self db.votes ec s v h4]
              have hpos := usage_pos db.votes ec s v h4
              omega
            rw [vote_eq_inr (votePhase1_add
                { db with votes := db.votes.erase (ec, s, v) } ec s v ev h1
                hfind h3 h4' h5'),
              votePhase2_votes]
            exact Finset.insert_erase h4
          · exfalso
            have hT : isCommitted (vote d1 db ec s v).db ec s = true := by
              rw [hv1, hdb]
              exact isCommitted_map_commitUpd _ ⟨ev, true, ec, s, v⟩ ev hfind
            rw [hT, isCommitted_false hfind h3] at hc
            simp at hc
        · by_cases h5 : 3 ≤ usage db.votes ec v
          · have e1 : (vote d1 db ec s v).db = db := by
              rw [vote_eq_inl (votePhase1_limit db ec s v ev h1 hfind h3 h4 h5)]
            rw [e1, vote_eq_inl (votePhase1_limit db ec s v ev h1 hfind h3 h4 h5)]
          · have hv1 : vote d1 db ec s v =
                votePhase2 d1 { db with votes := insert (ec, s, v) db.votes }
                  ⟨ev, false, ec, s, v⟩ :=
              vote_eq_inr (votePhase1_add db ec s v ev h1 hfind h3 h4 h5)
            rcases votePhase2_db d1
                { db with votes := insert (ec, s, v) db.votes }
                ⟨ev, false, ec, s, v⟩ with hdb | hdb
            · have e1 : (vote d1 db ec s v).db =
                  { db with votes := insert (ec, s, v) db.votes } := by
                rw [hv1, hdb]
              rw [e1]
              have h4' : (ec, s, v) ∈
                  ({ db with votes := insert (ec, s, v) db.votes } : DB).votes :=
                Finset.mem_insert_self _ _
              rw [vote_eq_inr (votePhase1_remove
                  { db with votes := insert (ec, s, v) db.votes } ec s v ev h1
                  hfind h3 h4'),
                votePhase2_votes]
              exact Finset.erase_insert h4
            · exfalso
              have hT : isCommitted (vote d1 db ec s v).db ec s = true := by
                rw [hv1, hdb]
                exact isCommitted_map_commitUpd _ ⟨ev, false, ec, s, v⟩ ev hfind
              rw [hT, isCommitted_false hfind h3] at hc
              simp at hc

/-- Witness for C5: add then remove on an empty ledger. -/
theorem C5_double_toggle_witness :
    (vote true (vote true db5 "E" "S" "A").db "E" "S" "A").db.votes = db5.votes
    ∧ tally (vote true (vote true db5 "E" "S" "A").db "E" "S" "A").db.votes "E" "S"
        = tally db5.votes "E" "S"
    ∧ usage (vote true (vote true db5 "E" "S" "A").db "E" "S" "A").db.votes "E" "A"
        = usage db5.votes "E" "A"
    ∧ (("E", "S", "A") ∈ (vote true (vote true db5 "E" "S" "A").db "E" "S" "A").db.votes
        ↔ ("E", "S", "A") ∈ db5.votes) :=
  C5_double_toggle true true db5 "E" "S" "A" (by decide) (by decide)

/-! ### Removal runs the commit branch (C2) -/

/-- C2 fails on the code: voter B already has a vote on the uncommitted
track, yet the removal toggle runs the threshold branch, invokes the
Commit Dispatcher, commits the track, and reports a removed action with
the threshold reached. -/
theorem C2_removal_triggers_commit :
    ("E", "S", "B") ∈ db2.votes
    ∧ isCommitted db2 "E" "S" = false
    ∧ (vote true db2 "E" "S" "B").outcome =
        VoteOutcome.toggled "removed" 1 0 true
    ∧ (vote true db2 "E" "S" "B").dispatched = true
    ∧ isCommitted (vote true db2 "E" "S" "B").db "E" "S" = true := by
  decide

/-! ### Concurrent double dispatch (C6) -/

/-- C6 fails on the code: two concurrent toggles on the same track,
interleaved so that both ledger transactions commit before either
threshold check runs (the handler releases the transaction with
`conn.commit()` before re-reading the tally), both observe the tally at
the threshold and both invoke the Commit Dispatcher — two dispatch calls,
with no idempotent committed-flag test between the tally comparison and
the dispatch. -/
theorem C6_concurrent_double_dispatch :
    votePhase1 db6 "E" "S" "A" = (Sum.inr p6a, db6a)
    ∧ votePhase1 db6a "E" "S" "B" = (Sum.inr p6b, db6b)
    ∧ (2 : Int) ≤ (tally db6b.votes "E" "S" : Int)
    ∧ (votePhase2 true db6b p6a).dispatched = true
    ∧ (votePhase2 true (votePhase2 true db6b p6a).db p6b).dispatched = true
    ∧ isCommitted (votePhase2 true (votePhase2 true db6b p6a).db p6b).db
        "E" "S" = true := by
  refine ⟨rfl, rfl, by decide, by decide, by decide, by decide⟩

/-! ### Threshold coercion at event creation (C7) -/

/-- C7 fails on the code: a threshold of 0 is accepted as-is (no coercion
to a positive integer), and a non-integer threshold aborts creation with
an error instead of defaulting to 5. -/
theorem C7_counterexample :
    create_event "C" "pl" "pid" (ThresholdInput.intLike 0) "tok" =
      CreateResult.created
        { code := "C", playlist_name := "pl", playlist_id := "pid",
          threshold := 0, admin_token := some "tok", added_songs := ∅ }
    ∧ ¬ ((0 : Int) > 0)
    ∧ create_event "C" "pl" "pid" ThresholdInput.nonIntLike "tok" =
        CreateResult.createError := by
  decide

/-- C7 amended: an empty playlist name fails with a validation error; an
absent threshold defaults to 5; an int-convertible threshold is stored
as-is (including zero and negatives); a non-convertible threshold aborts
creation with an error; the committed set starts empty. -/
theorem C7_amended :
    (∀ code pid tok, create_event code "" pid ThresholdInput.unset tok =
        CreateResult.validationError)
    ∧ (∀ code pn pid tok, pn ≠ "" →
        create_event code pn pid ThresholdInput.unset tok =
          CreateResult.created
            { code := code, playlist_name := pn, playlist_id := pid,
              threshold := 5, admin_token := some tok, added_songs := ∅ })
    ∧ (∀ code pn pid tok (n : Int), pn ≠ "" →
        create_event code pn pid (ThresholdInput.intLike n) tok =
          CreateResult.created
            { code := code, playlist_name := pn, playlist_id := pid,
              threshold := n, admin_token := some tok, added_songs := ∅ })
    ∧ (∀ code pn pid tok, pn ≠ "" →
        create_event code pn pid ThresholdInput.nonIntLike tok =
          CreateResult.createError) := by
  refine ⟨?_, ?_, ?_, ?_⟩
  · intro code pid tok
    rfl
  · intro code pn pid tok h
    unfold create_event
    rw [if_neg h]
    rfl
  · intro code pn pid tok n h
    unfold create_event
    rw [if_neg h]
    rfl
  · intro code pn pid tok h
    unfold create_event
    rw [if_neg h]
    rfl

/-- Witness for the amended C7 at concrete inputs. -/
theorem C7_amended_witness :
    create_event "C" "" "pid" ThresholdInput.unset "tok" =
        CreateResult.validationError
    ∧ create_event "C" "pl" "pid" ThresholdInput.unset "tok" =
        CreateResult.created
          { code := "C", playlist_name := "pl", playlist_id := "pid",
            threshold := 5, admin_token := some "tok", added_songs := ∅ }
    ∧ create_event "C" "pl" "pid" (ThresholdInput.intLike (-2)) "tok" =
        CreateResult.created
          { code := "C", playlist_name := "pl", playlist_id := "pid",
            threshold := -2, admin_token := some "tok", added_songs := ∅ }
    ∧ create_event "C" "pl" "pid" ThresholdInput.nonIntLike "tok" =
        CreateResult.createError :=
  ⟨C7_amended.1 "C" "pid" "tok",
   C7_amended.2.1 "C" "pl" "pid" "tok" (by decide),
   C7_amended.2.2.1 "C" "pl" "pid" "tok" (-2) (by decide),
   C7_amended.2.2.2 "C" "pl" "pid" "tok" (by decide)⟩

/-! ### Missing credential at dispatch time (C9) -/

/-- C9 fails on the code: a threshold-crossing add with no credential
available returns a plain successful toggled response (threshold not
reported as reached) instead of surfacing a credential error; the
dispatcher is silently skipped. -/
theorem C9_counterexample :
    (vote true db9 "E" "S" "A").outcome = VoteOutcome.toggled "added" 1 1 false
    ∧ (vote true db9 "E" "S" "A").dispatched = false
    ∧ (1 : Int) ≤ (tally (vote true db9 "E" "S" "A").db.votes "E" "S" : Int)
    ∧ isCommitted (vote true db9 "E" "S" "A").db "E" "S" = false := by
  decide

/-- C9 amended: when no credential is available at dispatch time during a
threshold-crossing add, the handler records the vote, silently skips the
dispatcher, and returns a successful toggled outcome with the threshold
reported as not reached; the track stays uncommitted, so a later
threshold-crossing toggle can still dispatch once a credential exists. -/
theorem C9_amended (dOk : Bool) (db : DB) (ec s v : String) (ev : Event)
    (h1 : ¬(ec = "" ∨ s = "" ∨ v = ""))
    (h2 : findEvent db.events ec = some ev) (h3 : s ∉ ev.added_songs)
    (h4 : (ec, s, v) ∉ db.votes) (h5 : ¬ 3 ≤ usage db.votes ec v)
    (htok : ev.admin_token = none)
    (hthr : ev.threshold ≤ (tally (insert (ec, s, v) db.votes) ec s : Int)) :
    vote dOk db ec s v =
      { outcome := VoteOutcome.toggled "added"
          (tally (insert (ec, s, v) db.votes) ec s)
          (usage (insert (ec, s, v) db.votes) ec v) false,
        db := { db with votes := insert (ec, s, v) db.votes },
        dispatched := false }
    ∧ isCommitted (vote dOk db ec s v).db ec s = false := by
  have hv : vote dOk db ec s v =
      { outcome := VoteOutcome.toggled "added"
          (tally (insert (ec, s, v) db.votes) ec s)
          (usage (insert (ec, s, v) db.votes) ec v) false,
        db := { db with votes := insert (ec, s, v) db.votes },
        dispatched := false } := by
    rw [vote_eq_inr (votePhase1_add db ec s v ev h1 h2 h3 h4 h5),
      votePhase2_no_token dOk _ _ htok hthr]
    rfl
  refine ⟨hv, ?_⟩
  rw [hv]
  exact isCommitted_false h2 h3

/-- Witness for the amended C9 at a concrete input. -/
theorem C9_amended_witness :
    vote true db9 "E" "S" "A" =
      { outcome := VoteOutcome.toggled "added"
          (tally (insert ("E", "S", "A") db9.votes) "E" "S")
          (usage (insert ("E", "S", "A") db9.votes) "E" "A") false,
        db := { db9 with votes := insert ("E", "S", "A") db9.votes },
        dispatched := false }
    ∧ isCommitted (vote true db9 "E" "S" "A").db "E" "S" = false :=
  C9_amended true db9 "E" "S" "A" ev9 (by decide) (by decide) (by decide)
    (by decide) (by decide) (by decide) (by decide)

/-! ### Usage query with missing identifiers (C10) -/

/-- C10: the per-voter usage query returns 0 whenever the event code or
the voter identity is missing, for every database state. -/
theorem C10_usage_missing_ids (db : DB) (ec v : String)
    (h : ec = "" ∨ v = "") :
    get_user_vote_count db ec v = 0 := by
  unfold get_user_vote_count
  rw [if_pos h]

/-- Witness for C10 on a database with a non-empty vote ledger. -/
theorem C10_usage_missing_ids_witness :
    get_user_vote_count { events := [], votes := {("E", "S", "A")} } "" "A" = 0 :=
  C10_usage_missing_ids { events := [], votes := {("E", "S", "A")} } "" "A"
    (Or.inl rfl)

/-! ### Tally snapshot (C8) -/

theorem mem_songsSorted {votes : Finset VKey} {ec a : String} :
    a ∈ songsSorted votes ec ↔ a ∈ eventSongs votes ec := by
  unfold songsSorted
  refine Quot.inductionOn (motive := fun m =>
      (eventSongs votes ec).1 = m → (a ∈ msortAsc m ↔ a ∈ eventSongs votes ec))
    (eventSongs votes ec).1 ?_ rfl
  intro l hl
  show a ∈ List.insertionSort (· ≤ ·) l ↔ _
  rw [List.mem_insertionSort, Finset.mem_def, hl]
  exact Iff.rfl

theorem mem_eventSongs_iff (votes : Finset VKey) (ec s : String) :
    s ∈ eventSongs votes ec ↔ 0 < tally votes ec s := by
  unfold eventSongs tally
  rw [Finset.card_pos]
  constructor
  · intro h
    rw [Finset.mem_image] at h
    obtain ⟨t, ht, hts⟩ := h
    rw [Finset.mem_filter] at ht
    exact ⟨t, Finset.mem_filter.2 ⟨ht.1, ht.2, hts⟩⟩
  · rintro ⟨t, ht⟩
    rw [Finset.mem_filter] at ht
    exact Finset.mem_image.2 ⟨t, Finset.mem_filter.2 ⟨ht.1, ht.2.1⟩, ht.2.2⟩

/-- C8: the event-stats query returns an entry (with the correct tally) for
every track with at least one vote and no others, sorted by tally
descending, together with the distinct-voter count across all tracks; the
event-details query returns the requesting voter's own usage count. -/
theorem C8_tally_snapshot (db : DB) (ec voter : String) (ev : Event)
    (entries : List StatsEntry) (tv : Nat) (thr : Int)
    (hec : ec ≠ "") (hv : voter ≠ "")
    (hfind : findEvent db.events ec = some ev)
    (hst : get_event_stats db ec = some (entries, tv, thr)) :
    (∀ s : String, 0 < tally db.votes ec s →
      ({ song_id := s, votes := tally db.votes ec s,
         threshold := ev.threshold } : StatsEntry) ∈ entries)
    ∧ (∀ e ∈ entries, 0 < e.votes ∧ e.votes = tally db.votes ec e.song_id
        ∧ e.threshold = ev.threshold)
    ∧ entries.Pairwise (fun a b => b.votes ≤ a.votes)
    ∧ tv = ((db.votes.filter (fun t => t.1 = ec)).image (fun t => t.2.2)).card
    ∧ get_event db ec voter =
        some ((songsSorted db.votes ec).map
                (fun s => (s, tally db.votes ec s)),
              tv, usage db.votes ec voter) := by
  unfold get_event_stats at hst
  rw [hfind] at hst
  simp only [Option.some.injEq, Prod.mk.injEq] at hst
  obtain ⟨he, htv, hthr⟩ := hst
  subst he
  subst htv
  subst hthr
  refine ⟨?_, ?_, ?_, rfl, ?_⟩
  · intro s hs
    rw [List.mem_insertionSort]
    refine List.mem_map.2 ⟨s, ?_, rfl⟩
    rw [mem_songsSorted]
    exact (mem_eventSongs_iff db.votes ec s).2 hs
  · intro e he
    rw [List.mem_insertionSort] at he
    obtain ⟨s, hs, rfl⟩ := List.mem_map.1 he
    rw [mem_songsSorted] at hs
    exact ⟨(mem_eventSongs_iff db.votes ec s).1 hs, rfl, rfl⟩
  · exact List.sorted_insertionSort _ _
  · unfold get_event
    rw [hfind]
    unfold get_user_vote_count
    rw [if_neg (not_or.mpr ⟨hec, hv⟩)]

/-- Witness for C8 at a concrete database. -/
theorem C8_tally_snapshot_witness :
    (∀ s : String, 0 < tally db8.votes "E" s →
      ({ song_id := s, votes := tally db8.votes "E" s,
         threshold := ev8.threshold } : StatsEntry) ∈ entries8)
    ∧ (∀ e ∈ entries8, 0 < e.votes ∧ e.votes = tally db8.votes "E" e.song_id
        ∧ e.threshold = ev8.threshold)
    ∧ entries8.Pairwise (fun a b => b.votes ≤ a.votes)
    ∧ 2 = ((db8.votes.filter (fun t => t.1 = "E")).image (fun t => t.2.2)).card
    ∧ get_event db8 "E" "A" =
        some ((songsSorted db8.votes "E").map
                (fun s => (s, tally db8.votes "E" s)),
              2, usage db8.votes "E" "A") :=
  C8_tally_snapshot db8 "E" "A" ev8 entries8 2 5 (by decide) (by decide)
    (by decide) (by decide)
